import Mathlib

/-!
Verification of the proximity decision engine of `bluetooth_lock.py`
(youngSSS/bluetooth-lock).

Shallow embedding conventions:
- Python strings are modelled as `List Char` (a Python `str` is a sequence
  of code points); `str.lower()` is `pyLower`, substring containment
  (`x in y`) is `strContainsSub`, and Python string truthiness
  (`if s:` — false exactly on the empty string) is `pyTruthy`.
- The scan result dict `devices: Dict[str, (device, rssi)]` is modelled as
  an insertion-ordered association list `ScanData`; `dict.items()`
  iteration is list traversal in order.
- One iteration of the `while True:` monitor loop is the step function
  `monitor_cycle` over the `lock_triggered : Bool` state, with the
  nondeterministic environment (scan outcomes, in-cycle exceptions)
  supplied as an oracle `CycleInput`.
- Side effects are reified: `lock_mac` returns the list of external
  commands it runs, and a cycle's result records the commands run, the
  number of `lock_mac` invocations, whether the grace wait was entered,
  and the duration of the end-of-cycle sleep.
-/

/-- Python string model: a sequence of code points. -/
abbrev PyStr := List Char

/-- Python `str.lower()` (per code point). -/
def pyLower (s : PyStr) : PyStr := s.map Char.toLower

/-- Python string truthiness: `if s:` is false exactly on `""`. -/
def pyTruthy (s : PyStr) : Bool := !(s == [])

/-- Python optional-string truthiness: `None` and `""` are falsy. -/
def pyTruthyOpt : Option PyStr → Bool
  | none => false
  | some s => pyTruthy s

/-- Whether `needle` occurs at the start of `hay`. -/
def headMatch : PyStr → PyStr → Bool
  | [], _ => true
  | _ :: _, [] => false
  | a :: as, b :: bs => a == b && headMatch as bs

/-- Python `needle in hay` substring containment. -/
def strContainsSub (hay needle : PyStr) : Bool :=
  match hay with
  | [] => needle == []
  | _ :: rest => headMatch needle hay || strContainsSub rest needle

/-- A scanned device as stored by the scan callback: `device.address`
and `device.name` of the bleak device object. -/
structure Device where
  address : PyStr
  name : Option PyStr
deriving DecidableEq, Repr

/-- The configuration dictionary produced by `load_config` (all keys of
`default_config` are always present after loading). -/
structure Config where
  target_device_name : PyStr
  target_device_address : PyStr
  distance_threshold : Int
  scan_interval : Nat
  grace_period : Nat
  scan_duration : Nat
  lock_enabled : Bool
deriving DecidableEq, Repr

/-- The `devices` dict built by `scan_devices`: keys (`device.address`)
with values `(device, rssi)`, in insertion order. -/
abbrev ScanData := List (PyStr × Device × Int)

/-- The configuration file as JSON content whose keys (when present)
override the defaults via `default_config.update(config)`. -/
structure PartialConfig where
  target_device_name : Option PyStr := none
  target_device_address : Option PyStr := none
  distance_threshold : Option Int := none
  scan_interval : Option Nat := none
  grace_period : Option Nat := none
  scan_duration : Option Nat := none
  lock_enabled : Option Bool := none
deriving DecidableEq, Repr

/-- State of the configuration file at startup, as seen by `load_config`:
missing, unreadable-or-malformed (open or `json.load` raises), or
readable with the given content. -/
inductive ConfigFile
  | missing
  | loadError
  | content (p : PartialConfig)
deriving DecidableEq, Repr

/-- The `default_config` dict of `load_config`. -/
def default_config : Config :=
  { target_device_name := []
    target_device_address := []
    distance_threshold := -70
    scan_interval := 0
    grace_period := 3
    scan_duration := 10
    lock_enabled := true }

/-- `BluetoothLock.load_config`: missing file → write and return defaults;
load error → log and return defaults; readable file → defaults merged
with (overridden by) the file's values. -/
def load_config : ConfigFile → Config
  | .missing => default_config
  | .loadError => default_config
  | .content p =>
    { target_device_name := p.target_device_name.getD default_config.target_device_name
      target_device_address := p.target_device_address.getD default_config.target_device_address
      distance_threshold := p.distance_threshold.getD default_config.distance_threshold
      scan_interval := p.scan_interval.getD default_config.scan_interval
      grace_period := p.grace_period.getD default_config.grace_period
      scan_duration := p.scan_duration.getD default_config.scan_duration
      lock_enabled := p.lock_enabled.getD default_config.lock_enabled }

/-- Outcome of one `BleakScanner` session: either the collected devices or
an adapter error raised during the scan. -/
inductive ScanOutcome
  | ok (devices : ScanData)
  | err
deriving DecidableEq, Repr

/-- `BluetoothLock.scan_devices`: returns the collected dict; any exception
is caught inside and an empty dict is returned. -/
def scan_devices : ScanOutcome → ScanData
  | .ok d => d
  | .err => []

/-- The name criterion of `find_target_device`:
`target_name and device.name and target_name.lower() in device.name.lower()`. -/
def name_matches (target_name : PyStr) (dname : Option PyStr) : Bool :=
  pyTruthy target_name && pyTruthyOpt dname &&
    strContainsSub (pyLower (dname.getD [])) (pyLower target_name)

/-- The address criterion of `find_target_device`:
`target_address and address.lower() == target_address.lower()`. -/
def addr_matches (target_address address : PyStr) : Bool :=
  pyTruthy target_address && (pyLower address == pyLower target_address)

/-- `BluetoothLock.find_target_device`: first entry matching by name
substring or by address; `None` when no entry matches. -/
def find_target_device (config : Config) : ScanData → Option (Device × Int)
  | [] => none
  | (address, device, rssi) :: rest =>
    if name_matches config.target_device_name device.name then some (device, rssi)
    else if addr_matches config.target_device_address address then some (device, rssi)
    else find_target_device config rest

/-- The threshold comparison used at line 136 (`rssi < distance_threshold`)
and line 160 (`target_result[1] < distance_threshold`): the FAR
classification. -/
def is_far (rssi threshold : Int) : Bool := rssi < threshold

/-- `BluetoothLock.lock_mac`, reified as the list of external commands it
runs: nothing when `lock_enabled` is false, otherwise the `pmset` screen
lock followed by the `security` keychain lock. -/
def lock_mac (config : Config) : List (List PyStr) :=
  if config.lock_enabled then
    [["pmset".data, "displaysleepnow".data], ["security".data, "lock-keychain".data]]
  else []

/-- Result of one `handle_device_far` call: whether the grace sleep ran,
how many times `lock_mac` was invoked, the external commands run, and the
resulting `lock_triggered` flag. -/
structure FarResult where
  graceSlept : Bool
  lockCalls : Nat
  cmds : List (List PyStr)
  lock_triggered : Bool
deriving DecidableEq, Repr

/-- `BluetoothLock.handle_device_far`: when `lock_triggered` is already
true, do nothing; otherwise sleep `grace_period`, re-scan once, and lock
(setting `lock_triggered`) unless the re-scan finds the target NEAR. -/
def handle_device_far (config : Config) (lock_triggered : Bool)
    (rescan : ScanOutcome) : FarResult :=
  if lock_triggered then
    { graceSlept := false, lockCalls := 0, cmds := [], lock_triggered := lock_triggered }
  else
    match find_target_device config (scan_devices rescan) with
    | none =>
      { graceSlept := true, lockCalls := 1, cmds := lock_mac config, lock_triggered := true }
    | some (_, rssi) =>
      if is_far rssi config.distance_threshold then
        { graceSlept := true, lockCalls := 1, cmds := lock_mac config, lock_triggered := true }
      else
        { graceSlept := true, lockCalls := 0, cmds := [], lock_triggered := false }

/-- Oracle input for one monitor-loop iteration: either the two scan
outcomes the cycle may consume (the second only if the grace wait is
entered), or an exception escaping the cycle body into the loop's
`except` handler. -/
inductive CycleInput
  | scans (o1 o2 : ScanOutcome)
  | exn
deriving DecidableEq, Repr

/-- Observable result of one monitor-loop iteration. -/
structure CycleResult where
  lock_triggered : Bool
  lockCalls : Nat
  cmds : List (List PyStr)
  graceEntered : Bool
  sleep : Nat
deriving DecidableEq, Repr

/-- One iteration of the `while True:` loop of
`BluetoothLock.monitor_device`: scan, resolve the target; if found, reset
`lock_triggered` to false (line 133) and run `handle_device_far` when the
reading is below threshold; if not found, log only.  The iteration ends
with `sleep(scan_interval)`, or `sleep(5)` when an exception was caught. -/
def monitor_cycle (config : Config) (lock_triggered : Bool) :
    CycleInput → CycleResult
  | .exn =>
    { lock_triggered := lock_triggered, lockCalls := 0, cmds := [],
      graceEntered := false, sleep := 5 }
  | .scans o1 o2 =>
    match find_target_device config (scan_devices o1) with
    | none =>
      { lock_triggered := lock_triggered, lockCalls := 0, cmds := [],
        graceEntered := false, sleep := config.scan_interval }
    | some (_, rssi) =>
      if is_far rssi config.distance_threshold then
        let fr := handle_device_far config false o2
        { lock_triggered := fr.lock_triggered, lockCalls := fr.lockCalls,
          cmds := fr.cmds, graceEntered := fr.graceSlept,
          sleep := config.scan_interval }
      else
        { lock_triggered := false, lockCalls := 0, cmds := [],
          graceEntered := false, sleep := config.scan_interval }

/-- A finite run of the monitor loop: threads `lock_triggered` through the
cycles and totals the `lock_mac` invocations. -/
def monitor_run (config : Config) (lock_triggered : Bool) :
    List CycleInput → Bool × Nat
  | [] => (lock_triggered, 0)
  | i :: rest =>
    let r := monitor_cycle config lock_triggered i
    let rec_result := monitor_run config r.lock_triggered rest
    (rec_result.1, r.lockCalls + rec_result.2)

/-- A cycle input whose first scan resolves the target and classifies it
NEAR. -/
def cycle_near (config : Config) : CycleInput → Bool
  | .exn => false
  | .scans o1 _ =>
    match find_target_device config (scan_devices o1) with
    | none => false
    | some (_, rssi) => !(is_far rssi config.distance_threshold)

/-- Modelled from the spec (§4.1 Target Resolver), for the refinement
claim about `find_target_device`: a candidate matches when (a) the name
substring is set and the display name is present and case-insensitively
contains it, or (b) the address is set and case-insensitively equals the
device identity. -/
def resolver_spec_match (spec_name spec_addr address : PyStr)
    (dname : Option PyStr) : Bool :=
  (pyTruthy spec_name &&
    (match dname with
     | some n => strContainsSub (pyLower n) (pyLower spec_name)
     | none => false))
  || (pyTruthy spec_addr && (pyLower address == pyLower spec_addr))

/-- Example configuration: target name substring "iphone", defaults
otherwise (threshold -70). -/
def exCfg : Config := { default_config with target_device_name := "iphone".data }

/-- Example target device advertising the name "My iPhone 15". -/
def exDev : Device :=
  { address := "aa:bb".data, name := some "My iPhone 15".data }

/-- Example scan snapshot: the target at RSSI -75 (below threshold, FAR). -/
def farScan : ScanOutcome := .ok [("aa:bb".data, exDev, -75)]

/-- Example scan snapshot: the target at RSSI -80 (FAR). -/
def farScan2 : ScanOutcome := .ok [("aa:bb".data, exDev, -80)]

/-- Example scan snapshot: the target at RSSI -60 (NEAR). -/
def nearScan : ScanOutcome := .ok [("aa:bb".data, exDev, -60)]

/-- Example scan snapshot: the target exactly at the default threshold. -/
def boundaryScan : ScanOutcome := .ok [("aa:bb".data, exDev, -70)]

/-- Example configuration with a 10-second scan interval. -/
def cfgInterval10 : Config := { default_config with scan_interval := 10 }

/-- Example configuration with locking disabled and a target name set. -/
def cfgNoLock : Config :=
  { default_config with
      target_device_name := "iphone".data, lock_enabled := false }

/-! ## Helper lemmas -/

theorem strContainsSub_nil (needle : PyStr) :
    strContainsSub [] needle = (needle == []) := rfl

theorem pyLower_beq_nil (s : PyStr) : (pyLower s == []) = (s == []) := by
  cases s with
  | nil => rfl
  | cons c cs => rfl

/-- Per-candidate equivalence of the code's two criteria with the
resolver contract of the spec. -/
theorem candidate_match_eq (sn sa address : PyStr) (dname : Option PyStr) :
    (name_matches sn dname || addr_matches sa address)
      = resolver_spec_match sn sa address dname := by
  cases dname with
  | none => simp [name_matches, addr_matches, resolver_spec_match, pyTruthyOpt]
  | some n =>
    cases n with
    | nil =>
      cases sn with
      | nil => rfl
      | cons a as => rfl
    | cons c cs =>
      simp [name_matches, addr_matches, resolver_spec_match, pyTruthyOpt, pyTruthy]

/-- The code resolver equals first-match search under the spec criterion. -/
theorem find_eq_spec (config : Config) (devices : ScanData) :
    find_target_device config devices =
      (devices.find? (fun e => resolver_spec_match config.target_device_name
        config.target_device_address e.1 e.2.1.name)).map (fun e => e.2) := by
  induction devices with
  | nil => rfl
  | cons e rest ih =>
    obtain ⟨address, device, rssi⟩ := e
    have hcand := candidate_match_eq config.target_device_name
      config.target_device_address address device.name
    cases hn : name_matches config.target_device_name device.name with
    | true =>
      have hr : resolver_spec_match config.target_device_name
          config.target_device_address address device.name = true := by
        rw [← hcand, hn]; rfl
      simp [find_target_device, hn, hr]
    | false =>
      cases ha : addr_matches config.target_device_address address with
      | true =>
        have hr : resolver_spec_match config.target_device_name
            config.target_device_address address device.name = true := by
          rw [← hcand, hn, ha]; rfl
        simp [find_target_device, hn, ha, hr]
      | false =>
        have hr : resolver_spec_match config.target_device_name
            config.target_device_address address device.name = false := by
          rw [← hcand, hn, ha]; rfl
        simp [find_target_device, hn, ha, hr, ih]

/-- A confirmed departure (re-scan finds nothing, or finds the target FAR)
makes `handle_device_far` lock once and set the flag. -/
theorem handle_far_confirmed (config : Config) (o2 : ScanOutcome)
    (h : find_target_device config (scan_devices o2) = none ∨
      ∃ dev2 r2, find_target_device config (scan_devices o2) = some (dev2, r2) ∧
        is_far r2 config.distance_threshold = true) :
    handle_device_far config false o2 =
      { graceSlept := true, lockCalls := 1, cmds := lock_mac config,
        lock_triggered := true } := by
  rcases h with h | ⟨dev2, r2, h, hf⟩
  · simp [handle_device_far, h]
  · simp [handle_device_far, h, hf]

/-- A NEAR-classified cycle makes no lock call. -/
theorem near_cycle_no_lock (config : Config) (lt : Bool) (i : CycleInput)
    (h : cycle_near config i = true) :
    (monitor_cycle config lt i).lockCalls = 0 := by
  cases i with
  | exn => simp [cycle_near] at h
  | scans o1 o2 =>
    simp only [cycle_near] at h
    cases hf : find_target_device config (scan_devices o1) with
    | none => rw [hf] at h; simp at h
    | some p =>
      obtain ⟨dev, r⟩ := p
      rw [hf] at h
      simp at h
      simp [monitor_cycle, hf, h]

/-! ## Claim theorems -/

/-- C4: the classification is FAR exactly when the signal strength is
strictly below the threshold; a reading equal to the threshold is NEAR,
and that boundary rule governs both the normal-cycle check (no grace wait
entered at an exactly-threshold reading) and the grace-period re-check
(no lock call when the re-check reads exactly the threshold). -/
theorem C4_classification (r t : Int) (config : Config) (lt : Bool)
    (o1 o2 o2b : ScanOutcome) (dev dev2 : Device)
    (hfind : find_target_device config (scan_devices o1) =
      some (dev, config.distance_threshold))
    (hfind2 : find_target_device config (scan_devices o2b) =
      some (dev2, config.distance_threshold)) :
    ((is_far r t = true) ↔ r < t) ∧
    is_far t t = false ∧
    (monitor_cycle config lt (.scans o1 o2)).graceEntered = false ∧
    (handle_device_far config false o2b).lockCalls = 0 := by
  refine ⟨by simp [is_far], by simp [is_far], ?_, ?_⟩
  · simp [monitor_cycle, hfind, is_far]
  · simp [handle_device_far, hfind2, is_far]

/-- C4 witness: threshold -70 with readings -75 (FAR) and an
exactly-threshold -70 reading (NEAR at both check sites). -/
theorem C4_classification_witness :
    (find_target_device exCfg (scan_devices boundaryScan) =
       some (exDev, exCfg.distance_threshold) ∧
     find_target_device exCfg (scan_devices boundaryScan) =
       some (exDev, exCfg.distance_threshold)) ∧
    (((is_far (-75) (-70) = true) ↔ (-75 : Int) < -70) ∧
     is_far (-70) (-70) = false ∧
     (monitor_cycle exCfg false (.scans boundaryScan nearScan)).graceEntered = false ∧
     (handle_device_far exCfg false boundaryScan).lockCalls = 0) :=
  ⟨⟨by decide, by decide⟩,
    C4_classification (-75) (-70) exCfg false boundaryScan nearScan boundaryScan
      exDev exDev (by decide) (by decide)⟩

/-- C5: the resolver returns the first candidate matching the spec
criterion (set name substring case-insensitively contained in a present
display name, or set address case-insensitively equal to the device
identity — either alone suffices); it returns none exactly when no
candidate matches, and none on the empty set.  Determinism is immediate
since `find_target_device` is a function of the readings and the spec. -/
theorem C5_resolver_contract (config : Config) (devices : ScanData) :
    (find_target_device config devices =
      (devices.find? (fun e => resolver_spec_match config.target_device_name
        config.target_device_address e.1 e.2.1.name)).map (fun e => e.2)) ∧
    (find_target_device config devices = none ↔
      ∀ e ∈ devices, resolver_spec_match config.target_device_name
        config.target_device_address e.1 e.2.1.name = false) ∧
    find_target_device config ([] : ScanData) = none := by
  refine ⟨find_eq_spec config devices, ?_, rfl⟩
  rw [find_eq_spec config devices]
  simp only [Option.map_eq_none', List.find?_eq_none, Bool.not_eq_true]

/-- C2: a departure episode that starts with a FAR classification while
`lock_triggered` is false, whose grace re-sample yields "not found" or a
FAR classification, invokes the Lock Actuator exactly once and sets
`lock_triggered`; the not-found and FAR re-check results are treated
identically. -/
theorem C2_confirmed_departure_locks_once (config : Config)
    (o1 o2 : ScanOutcome) (dev : Device) (r : Int)
    (h1 : find_target_device config (scan_devices o1) = some (dev, r))
    (h2 : is_far r config.distance_threshold = true)
    (h3 : find_target_device config (scan_devices o2) = none ∨
      ∃ dev2 r2, find_target_device config (scan_devices o2) = some (dev2, r2) ∧
        is_far r2 config.distance_threshold = true) :
    (monitor_cycle config false (.scans o1 o2)).lockCalls = 1 ∧
    (monitor_cycle config false (.scans o1 o2)).lock_triggered = true ∧
    (monitor_cycle config false (.scans o1 o2)).cmds = lock_mac config ∧
    (monitor_cycle config false (.scans o1 o2)).graceEntered = true := by
  have hf := handle_far_confirmed config o2 h3
  refine ⟨?_, ?_, ?_, ?_⟩ <;> simp [monitor_cycle, h1, h2, hf]

/-- C2 witness: target found at RSSI -75 (FAR, threshold -70), re-check
scan fails and yields no devices ("not found"): one lock call. -/
theorem C2_confirmed_departure_locks_once_witness :
    (find_target_device exCfg (scan_devices farScan) = some (exDev, -75) ∧
     is_far (-75) exCfg.distance_threshold = true ∧
     find_target_device exCfg (scan_devices .err) = none) ∧
    ((monitor_cycle exCfg false (.scans farScan .err)).lockCalls = 1 ∧
     (monitor_cycle exCfg false (.scans farScan .err)).lock_triggered = true ∧
     (monitor_cycle exCfg false (.scans farScan .err)).cmds = lock_mac exCfg ∧
     (monitor_cycle exCfg false (.scans farScan .err)).graceEntered = true) :=
  ⟨⟨by decide, by decide, by decide⟩,
    C2_confirmed_departure_locks_once exCfg farScan .err exDev (-75)
      (by decide) (by decide) (Or.inl (by decide))⟩

/-- C3: a departure episode that starts with a FAR classification, whose
grace re-sample finds the target NEAR, is abandoned: no lock call, no
commands, and `lock_triggered` stays false (state returns to ARMED). -/
theorem C3_near_recheck_cancels (config : Config) (o1 o2 : ScanOutcome)
    (dev dev2 : Device) (r r2 : Int)
    (h1 : find_target_device config (scan_devices o1) = some (dev, r))
    (h2 : is_far r config.distance_threshold = true)
    (h3 : find_target_device config (scan_devices o2) = some (dev2, r2))
    (h4 : is_far r2 config.distance_threshold = false) :
    (monitor_cycle config false (.scans o1 o2)).lockCalls = 0 ∧
    (monitor_cycle config false (.scans o1 o2)).lock_triggered = false ∧
    (monitor_cycle config false (.scans o1 o2)).cmds = [] ∧
    (monitor_cycle config false (.scans o1 o2)).graceEntered = true := by
  refine ⟨?_, ?_, ?_, ?_⟩ <;>
    simp [monitor_cycle, h1, h2, handle_device_far, h3, h4]

/-- C3 witness: target at RSSI -75 (FAR), grace re-check reads -60
(NEAR): episode abandoned without locking. -/
theorem C3_near_recheck_cancels_witness :
    (find_target_device exCfg (scan_devices farScan) = some (exDev, -75) ∧
     is_far (-75) exCfg.distance_threshold = true ∧
     find_target_device exCfg (scan_devices nearScan) = some (exDev, -60) ∧
     is_far (-60) exCfg.distance_threshold = false) ∧
    ((monitor_cycle exCfg false (.scans farScan nearScan)).lockCalls = 0 ∧
     (monitor_cycle exCfg false (.scans farScan nearScan)).lock_triggered = false ∧
     (monitor_cycle exCfg false (.scans farScan nearScan)).cmds = [] ∧
     (monitor_cycle exCfg false (.scans farScan nearScan)).graceEntered = true) :=
  ⟨⟨by decide, by decide, by decide, by decide⟩,
    C3_near_recheck_cancels exCfg farScan nearScan exDev exDev (-75) (-60)
      (by decide) (by decide) (by decide) (by decide)⟩

/-- C1: evaluation of the code at the failing input.  With
`lock_triggered` already true and the target found FAR (RSSI -75 against
threshold -70, grace re-check -80), the cycle nevertheless re-enters the
grace wait and invokes `lock_mac` again, because `monitor_device` resets
`lock_triggered` to false on any found target (line 133) before the
threshold check; a two-cycle steady-far run therefore produces two lock
invocations, contradicting the claimed no-new-action steady state. -/
theorem C1_steady_far_relocks :
    (monitor_cycle exCfg true (.scans farScan farScan2)).graceEntered = true ∧
    (monitor_cycle exCfg true (.scans farScan farScan2)).lockCalls = 1 ∧
    (monitor_cycle exCfg true (.scans farScan farScan2)).lock_triggered = true ∧
    monitor_run exCfg false
      [.scans farScan farScan2, .scans farScan farScan2] = (true, 2) := by
  decide

/-- C6: over any finite run of the monitor loop in which every cycle
finds the target and classifies it NEAR, no `lock_mac` invocation occurs,
regardless of the number of cycles or the initial flag. -/
theorem C6_near_cycles_never_lock (config : Config) (lt : Bool)
    (inputs : List CycleInput)
    (h : ∀ i ∈ inputs, cycle_near config i = true) :
    (monitor_run config lt inputs).2 = 0 := by
  induction inputs generalizing lt with
  | nil => rfl
  | cons i rest ih =>
    rw [monitor_run]
    have h1 := near_cycle_no_lock config lt i (h i (List.mem_cons_self i rest))
    have h2 := ih (monitor_cycle config lt i).lock_triggered
      (fun j hj => h j (List.mem_cons_of_mem i hj))
    simp [h1, h2]

/-- C6 witness: three consecutive NEAR cycles starting from a triggered
flag produce zero lock calls. -/
theorem C6_near_cycles_never_lock_witness :
    (∀ i ∈ [CycleInput.scans nearScan farScan2,
            CycleInput.scans nearScan nearScan,
            CycleInput.scans nearScan farScan2],
        cycle_near exCfg i = true) ∧
    (monitor_run exCfg true
      [CycleInput.scans nearScan farScan2,
       CycleInput.scans nearScan nearScan,
       CycleInput.scans nearScan farScan2]).2 = 0 :=
  ⟨by decide,
    C6_near_cycles_never_lock exCfg true
      [CycleInput.scans nearScan farScan2,
       CycleInput.scans nearScan nearScan,
       CycleInput.scans nearScan farScan2] (by decide)⟩

/-- C7: a cycle whose scan does not resolve the target performs no action
beyond logging: no lock call, no commands, no grace wait, the
`lock_triggered` flag unchanged, and the cycle ends with the normal
`scan_interval` sleep. -/
theorem C7_not_found_noop (config : Config) (lt : Bool) (o1 o2 : ScanOutcome)
    (h : find_target_device config (scan_devices o1) = none) :
    monitor_cycle config lt (.scans o1 o2) =
      { lock_triggered := lt, lockCalls := 0, cmds := [],
        graceEntered := false, sleep := config.scan_interval } := by
  simp [monitor_cycle, h]

/-- C7 witness: a failed scan yields no devices, so the target is not
found and the cycle is a no-op with the flag (true) preserved. -/
theorem C7_not_found_noop_witness :
    find_target_device exCfg (scan_devices ScanOutcome.err) = none ∧
    monitor_cycle exCfg true (.scans .err farScan2) =
      { lock_triggered := true, lockCalls := 0, cmds := [],
        graceEntered := false, sleep := exCfg.scan_interval } :=
  ⟨by decide, C7_not_found_noop exCfg true .err farScan2 (by decide)⟩

/-- C8: a missing, unreadable, or malformed configuration file yields the
default configuration (the loader returns rather than aborting); the
defaults are threshold -70, scan_interval 0, grace_period 3,
scan_duration 10, lock_enabled true; and each value present in a readable
file overrides the corresponding default. -/
theorem C8_config_defaults_and_override (p : PartialConfig) :
    load_config .loadError = default_config ∧
    load_config .missing = default_config ∧
    default_config.distance_threshold = -70 ∧
    default_config.scan_interval = 0 ∧
    default_config.grace_period = 3 ∧
    default_config.scan_duration = 10 ∧
    default_config.lock_enabled = true ∧
    (load_config (.content p)).distance_threshold =
      p.distance_threshold.getD (-70) ∧
    (load_config (.content p)).scan_interval = p.scan_interval.getD 0 ∧
    (load_config (.content p)).grace_period = p.grace_period.getD 3 ∧
    (load_config (.content p)).scan_duration = p.scan_duration.getD 10 ∧
    (load_config (.content p)).lock_enabled = p.lock_enabled.getD true := by
  refine ⟨rfl, rfl, rfl, rfl, rfl, rfl, rfl, ?_, ?_, ?_, ?_, ?_⟩ <;>
    simp [load_config, default_config]

/-- C9 counterexample: with a configured `scan_interval` of 10 seconds
the post-exception backoff sleep is 5 seconds, which is not longer than
the normal interval — refuting the claim that the backoff is longer than
the normal scan_interval. -/
theorem C9_backoff_not_longer_counterexample :
    (monitor_cycle cfgInterval10 false .exn).sleep = 5 ∧
    ¬ cfgInterval10.scan_interval < (monitor_cycle cfgInterval10 false .exn).sleep := by
  decide

/-- C9 amended: an in-cycle exception is caught (the step yields a result
instead of terminating): the state is unchanged, nothing is locked, and
the loop sleeps a fixed 5-second backoff — longer than the default
scan_interval of 0, though not necessarily longer than a configured one;
a scan failure is caught inside `scan_devices` (yielding an empty set)
and the cycle proceeds as a normal not-found no-op. -/
theorem C9_exception_caught_fixed_backoff (config : Config) (lt : Bool)
    (o2 : ScanOutcome) :
    (monitor_cycle config lt .exn).lock_triggered = lt ∧
    (monitor_cycle config lt .exn).lockCalls = 0 ∧
    (monitor_cycle config lt .exn).cmds = [] ∧
    (monitor_cycle config lt .exn).sleep = 5 ∧
    scan_devices .err = [] ∧
    monitor_cycle config lt (.scans .err o2) =
      { lock_triggered := lt, lockCalls := 0, cmds := [],
        graceEntered := false, sleep := config.scan_interval } ∧
    default_config.scan_interval < (monitor_cycle default_config lt .exn).sleep := by
  refine ⟨rfl, rfl, rfl, rfl, rfl, rfl, ?_⟩
  simp [monitor_cycle, default_config]

/-- C10: with `lock_enabled` false, a confirmed departure still sets
`lock_triggered` to true: `lock_mac` runs no external command, yet the
caller invokes it once and marks the episode triggered. -/
theorem C10_disabled_lock_still_sets_flag (config : Config) (o2 : ScanOutcome)
    (hd : config.lock_enabled = false)
    (h3 : find_target_device config (scan_devices o2) = none ∨
      ∃ dev2 r2, find_target_device config (scan_devices o2) = some (dev2, r2) ∧
        is_far r2 config.distance_threshold = true) :
    lock_mac config = [] ∧
    (handle_device_far config false o2).lock_triggered = true ∧
    (handle_device_far config false o2).lockCalls = 1 ∧
    (handle_device_far config false o2).cmds = [] := by
  have hm : lock_mac config = [] := by simp [lock_mac, hd]
  have hf := handle_far_confirmed config o2 h3
  simp [hf, hm]

/-- C10 witness: locking disabled, re-check finds nothing: no commands
run, yet the flag is set and `lock_mac` was invoked once. -/
theorem C10_disabled_lock_still_sets_flag_witness :
    (cfgNoLock.lock_enabled = false ∧
     find_target_device cfgNoLock (scan_devices ScanOutcome.err) = none) ∧
    (lock_mac cfgNoLock = [] ∧
     (handle_device_far cfgNoLock false .err).lock_triggered = true ∧
     (handle_device_far cfgNoLock false .err).lockCalls = 1 ∧
     (handle_device_far cfgNoLock false .err).cmds = []) :=
  ⟨⟨by decide, by decide⟩,
    C10_disabled_lock_still_sets_flag cfgNoLock .err (by decide)
      (Or.inl (by decide))⟩
